import Mathlib

/-!
Verification of the adaptive voxel-size estimator and mesh validation of the
blender-shell-generator add-on.

The estimator `calculate_optimal_voxel_size` (src/modules/utils.py, duplicated
in src/shell_gen.py) is a pure numeric function; we embed it over the reals.
Python float powers `** 0.5` and `** 0.3` are modelled by the real power
`Real.rpow`. The Blender object is modelled by the fields the two functions
read: `type`, `matrix_world`, `bound_box` (list of corner points), and the
vertex and polygon counts of `obj.data`.
-/

/-- A 3D point, as produced by `mathutils.Vector`. -/
structure Vec3 where
  x : ℝ
  y : ℝ
  z : ℝ

/-- A 4x4 world matrix, as in `obj.matrix_world`. -/
structure Mat4 where
  m00 : ℝ
  m01 : ℝ
  m02 : ℝ
  m03 : ℝ
  m10 : ℝ
  m11 : ℝ
  m12 : ℝ
  m13 : ℝ
  m20 : ℝ
  m21 : ℝ
  m22 : ℝ
  m23 : ℝ
  m30 : ℝ
  m31 : ℝ
  m32 : ℝ
  m33 : ℝ

/-- `matrix_world @ Vector(corner)`: Blender multiplies a 4x4 matrix with a
3D vector by extending it with a homogeneous 1 and returning the first three
components. -/
def matApply (m : Mat4) (v : Vec3) : Vec3 :=
  ⟨m.m00 * v.x + m.m01 * v.y + m.m02 * v.z + m.m03,
   m.m10 * v.x + m.m11 * v.y + m.m12 * v.z + m.m13,
   m.m20 * v.x + m.m21 * v.y + m.m22 * v.z + m.m23⟩

/-- The mesh data block `obj.data`; the code only reads
`len(obj.data.vertices)` and `len(obj.data.polygons)` (the latter also for
truthiness), so we keep the two counts. -/
structure MeshData where
  vertices : ℕ
  polygons : ℕ

/-- The fields of a Blender object read by `calculate_optimal_voxel_size`
and `validate_mesh`. -/
structure BlenderObject where
  type : String
  matrix_world : Mat4
  bound_box : List Vec3
  data : MeshData

/-- Python `min` over a nonempty list of floats (left fold from the first
element; on the empty list Python raises, here we return a junk value 0 —
`obj.bound_box` always has 8 corners). -/
def listMin (l : List ℝ) : ℝ := l.foldl min (l.headD 0)

/-- Python `max` over a nonempty list of floats. -/
def listMax (l : List ℝ) : ℝ := l.foldl max (l.headD 0)

/-- `bbox_corners = [obj.matrix_world @ Vector(corner) for corner in obj.bound_box]`. -/
def bbox_corners (obj : BlenderObject) : List Vec3 :=
  obj.bound_box.map (fun corner => matApply obj.matrix_world corner)

/-- `min_x = min(corner.x for corner in bbox_corners)`. -/
def min_x (obj : BlenderObject) : ℝ := listMin ((bbox_corners obj).map Vec3.x)

/-- `max_x = max(corner.x for corner in bbox_corners)`. -/
def max_x (obj : BlenderObject) : ℝ := listMax ((bbox_corners obj).map Vec3.x)

/-- `min_y = min(corner.y for corner in bbox_corners)`. -/
def min_y (obj : BlenderObject) : ℝ := listMin ((bbox_corners obj).map Vec3.y)

/-- `max_y = max(corner.y for corner in bbox_corners)`. -/
def max_y (obj : BlenderObject) : ℝ := listMax ((bbox_corners obj).map Vec3.y)

/-- `min_z = min(corner.z for corner in bbox_corners)`. -/
def min_z (obj : BlenderObject) : ℝ := listMin ((bbox_corners obj).map Vec3.z)

/-- `max_z = max(corner.z for corner in bbox_corners)`. -/
def max_z (obj : BlenderObject) : ℝ := listMax ((bbox_corners obj).map Vec3.z)

/-- `diagonal_length = ((max_x-min_x)**2 + (max_y-min_y)**2 + (max_z-min_z)**2)**0.5`. -/
noncomputable def diagonal_length (obj : BlenderObject) : ℝ :=
  ((max_x obj - min_x obj) ^ 2 + (max_y obj - min_y obj) ^ 2 +
      (max_z obj - min_z obj) ^ 2) ^ (0.5 : ℝ)

/-- `complexity_factor = 1.0 / (1.0 + 0.1 * (vertex_count ** 0.3))`. -/
noncomputable def complexity_factor (vertex_count : ℕ) : ℝ :=
  1.0 / (1.0 + 0.1 * ((vertex_count : ℝ) ^ (0.3 : ℝ)))

/-- `base_voxel_percent = 0.005 * complexity_factor`. -/
noncomputable def base_voxel_percent (vertex_count : ℕ) : ℝ :=
  0.005 * complexity_factor vertex_count

/-- `calculate_optimal_voxel_size(obj, detail_level, unit_scale)` from
src/modules/utils.py (identical copy in src/shell_gen.py):
`voxel_size = diagonal_length * base_voxel_percent * detail_level`, then
`voxel_size = max(min_size, min(voxel_size, max_size))` with `min_size = 0.1`
and `max_size = 5.0 * detail_level`. The source also binds
`face_count = len(obj.data.polygons)` and never uses it; `unit_scale` is
likewise unused. -/
noncomputable def calculate_optimal_voxel_size (obj : BlenderObject)
    (detail_level : ℝ) (unit_scale : ℝ) : ℝ :=
  max 0.1 (min (diagonal_length obj * base_voxel_percent obj.data.vertices * detail_level)
    (5.0 * detail_level))

/-- `validate_mesh(obj)` from src/modules/utils.py: raises `ValueError` with
the given message at the first failing check, otherwise returns `None`.
Python `not obj.data.polygons` on a collection is true exactly when it is
empty. -/
def validate_mesh (obj : Option BlenderObject) : Except String Unit :=
  match obj with
  | none => Except.error "No object provided"
  | some o =>
    if o.type ≠ "MESH" then Except.error "Object must be a mesh"
    else if o.data.vertices = 0 then Except.error "Mesh has no vertices"
    else if o.data.polygons = 0 then Except.error "Mesh has no faces"
    else Except.ok ()

/-- `clamp(x, lo, hi)`, written as the source writes it:
`max(lo, min(x, hi))`. -/
noncomputable def clamp (x lo hi : ℝ) : ℝ := max lo (min x hi)

/-- Modelled from the spec: the closed-form value the spec ascribes to the
estimator, `clamp(diagonal * 0.005 * (1 / (1 + 0.1 * vertex_count^0.3)) *
detail_level, 0.1, 5.0 * detail_level)` with `diagonal` the Euclidean length
of the bounding-box diagonal. Used only to compare against the embedding of
the source. -/
noncomputable def spec_voxel_size (obj : BlenderObject) (detail_level : ℝ) : ℝ :=
  clamp (Real.sqrt ((max_x obj - min_x obj) ^ 2 + (max_y obj - min_y obj) ^ 2 +
        (max_z obj - min_z obj) ^ 2) *
      0.005 * (1 / (1 + 0.1 * ((obj.data.vertices : ℝ) ^ (0.3 : ℝ)))) * detail_level)
    0.1 (5.0 * detail_level)

/-- The identity world matrix. -/
def idMat : Mat4 := ⟨1, 0, 0, 0, 0, 1, 0, 0, 0, 0, 1, 0, 0, 0, 0, 1⟩

/-- Eight coincident bounding-box corners at the origin (a degenerate,
zero-volume object). -/
def degCorners : List Vec3 :=
  [⟨0, 0, 0⟩, ⟨0, 0, 0⟩, ⟨0, 0, 0⟩, ⟨0, 0, 0⟩, ⟨0, 0, 0⟩, ⟨0, 0, 0⟩, ⟨0, 0, 0⟩, ⟨0, 0, 0⟩]

/-- A degenerate mesh object: zero-volume bounding box, no vertices, no
faces. -/
def degObj : BlenderObject := ⟨"MESH", idMat, degCorners, ⟨0, 0⟩⟩

/-- The corners of the unit cube. -/
def cubeCorners : List Vec3 :=
  [⟨0, 0, 0⟩, ⟨0, 0, 1⟩, ⟨0, 1, 0⟩, ⟨0, 1, 1⟩, ⟨1, 0, 0⟩, ⟨1, 0, 1⟩, ⟨1, 1, 0⟩, ⟨1, 1, 1⟩]

/-- An object whose world bounding box is the unit cube. -/
def cubeObj : BlenderObject := ⟨"MESH", idMat, cubeCorners, ⟨0, 0⟩⟩

lemma complexity_factor_pos (v : ℕ) : 0 < complexity_factor v := by
  unfold complexity_factor
  have h : (0 : ℝ) ≤ (v : ℝ) ^ (0.3 : ℝ) := Real.rpow_nonneg (Nat.cast_nonneg v) _
  positivity

lemma complexity_factor_anti {v1 v2 : ℕ} (h : v1 ≤ v2) :
    complexity_factor v2 ≤ complexity_factor v1 := by
  unfold complexity_factor
  rw [show (1.0 : ℝ) = 1 by norm_num]
  apply one_div_le_one_div_of_le
  · have h1 : (0 : ℝ) ≤ (v1 : ℝ) ^ (0.3 : ℝ) := Real.rpow_nonneg (Nat.cast_nonneg v1) _
    positivity
  · have h2 : (v1 : ℝ) ^ (0.3 : ℝ) ≤ (v2 : ℝ) ^ (0.3 : ℝ) :=
      Real.rpow_le_rpow (Nat.cast_nonneg v1) (by exact_mod_cast h) (by norm_num)
    linarith

lemma base_voxel_percent_pos (v : ℕ) : 0 < base_voxel_percent v := by
  unfold base_voxel_percent
  have := complexity_factor_pos v
  positivity

lemma base_voxel_percent_anti {v1 v2 : ℕ} (h : v1 ≤ v2) :
    base_voxel_percent v2 ≤ base_voxel_percent v1 := by
  unfold base_voxel_percent
  exact mul_le_mul_of_nonneg_left (complexity_factor_anti h) (by norm_num)

lemma diagonal_length_nonneg (obj : BlenderObject) : 0 ≤ diagonal_length obj := by
  unfold diagonal_length
  apply Real.rpow_nonneg
  positivity

lemma voxel_size_of_zero_diagonal (obj : BlenderObject) (dl us : ℝ) (hdl : 0 < dl)
    (h : diagonal_length obj = 0) : calculate_optimal_voxel_size obj dl us = 0.1 := by
  unfold calculate_optimal_voxel_size
  rw [h, zero_mul, zero_mul, min_eq_left (by linarith), max_eq_left (by norm_num)]

lemma degObj_box_degenerate :
    min_x degObj = max_x degObj ∧ min_y degObj = max_y degObj ∧
      min_z degObj = max_z degObj := by
  refine ⟨?_, ?_, ?_⟩ <;>
    norm_num [min_x, max_x, min_y, max_y, min_z, max_z, listMin, listMax,
      bbox_corners, degObj, degCorners, idMat, matApply]

lemma degObj_diag : diagonal_length degObj = 0 := by
  obtain ⟨hx, hy, hz⟩ := degObj_box_degenerate
  unfold diagonal_length
  rw [hx, hy, hz]
  rw [show (max_x degObj - max_x degObj) ^ 2 + (max_y degObj - max_y degObj) ^ 2 +
      (max_z degObj - max_z degObj) ^ 2 = (0 : ℝ) by ring]
  exact Real.zero_rpow (by norm_num)

/-- Claim C7: with `vertex_count == 0` the intermediate `complexity_factor`
equals `1.0` exactly (it saturates rather than failing), so
`base_voxel_percent` equals `0.005` exactly. -/
theorem complexity_factor_zero_mesh :
    complexity_factor 0 = 1.0 ∧ base_voxel_percent 0 = 0.005 := by
  have h : ((0 : ℕ) : ℝ) ^ (0.3 : ℝ) = 0 := by
    rw [Nat.cast_zero]
    exact Real.zero_rpow (by norm_num)
  constructor
  · unfold complexity_factor
    rw [h]
    norm_num
  · unfold base_voxel_percent complexity_factor
    rw [h]
    norm_num

/-- Claim C8: the `unit_scale` argument does not affect the result of
`calculate_optimal_voxel_size`: any two values of it give identical
results. -/
theorem voxel_size_unit_scale_noninterference (obj : BlenderObject)
    (dl s1 s2 : ℝ) :
    calculate_optimal_voxel_size obj dl s1 = calculate_optimal_voxel_size obj dl s2 := rfl

/-- Claim C9: the result of `calculate_optimal_voxel_size` depends only on
the bounding-box data, vertex count and detail level; two objects differing
only in their polygon (face) count get identical voxel sizes. -/
theorem voxel_size_face_count_noninterference (t : String) (m : Mat4)
    (bb : List Vec3) (v fc1 fc2 : ℕ) (dl us : ℝ) :
    calculate_optimal_voxel_size ⟨t, m, bb, ⟨v, fc1⟩⟩ dl us =
      calculate_optimal_voxel_size ⟨t, m, bb, ⟨v, fc2⟩⟩ dl us := rfl

/-- Claim C1 (amended): for `detail_level ≥ 0.02` (so that the lower clamp
`0.1` does not exceed the upper clamp `5.0 * detail_level`), the returned
voxel size satisfies `0.1 ≤ voxel_size ≤ 5.0 * detail_level`; the vertex
count and bounding-box extents are arbitrary. -/
theorem voxel_size_within_clamp (obj : BlenderObject) (dl us : ℝ)
    (hdl : 0.02 ≤ dl) :
    0.1 ≤ calculate_optimal_voxel_size obj dl us ∧
      calculate_optimal_voxel_size obj dl us ≤ 5.0 * dl := by
  unfold calculate_optimal_voxel_size
  constructor
  · exact le_max_left _ _
  · exact max_le (by linarith) (min_le_right _ _)

theorem voxel_size_within_clamp_witness :
    0.1 ≤ calculate_optimal_voxel_size degObj 1 1 ∧
      calculate_optimal_voxel_size degObj 1 1 ≤ 5.0 * 1 :=
  voxel_size_within_clamp degObj 1 1 (by norm_num)

/-- Claim C1 as stated is false: at the degenerate object with
`detail_level = 0.01 > 0`, the lower clamp wins and the result `0.1`
exceeds `5.0 * detail_level = 0.05`. -/
theorem voxel_size_upper_bound_cex :
    0 < (0.01 : ℝ) ∧
      ¬ calculate_optimal_voxel_size degObj 0.01 1 ≤ 5.0 * 0.01 := by
  constructor
  · norm_num
  · rw [voxel_size_of_zero_diagonal degObj 0.01 1 (by norm_num) degObj_diag]
    norm_num

/-- Claim C2: for every object, detail level and unit scale, the source
computes exactly
`clamp(diagonal * 0.005 * (1 / (1 + 0.1 * vertex_count^0.3)) * detail_level,
0.1, 5.0 * detail_level)` with `diagonal` the Euclidean length of the
axis-aligned world-space bounding-box diagonal. -/
theorem voxel_size_matches_spec_formula (obj : BlenderObject) (dl us : ℝ) :
    calculate_optimal_voxel_size obj dl us = spec_voxel_size obj dl := by
  unfold calculate_optimal_voxel_size spec_voxel_size clamp base_voxel_percent
    complexity_factor diagonal_length
  rw [Real.sqrt_eq_rpow, show (1 / 2 : ℝ) = (0.5 : ℝ) by norm_num]
  congr 2
  ring

/-- Claim C3: the estimator is total: the divisor in the complexity factor
is never zero, and in the degenerate zero-diagonal case the result clamps
to `0.1`. -/
theorem voxel_size_total (obj : BlenderObject) (dl us : ℝ) (hdl : 0 < dl) :
    1.0 + 0.1 * ((obj.data.vertices : ℝ) ^ (0.3 : ℝ)) ≠ 0 ∧
      (diagonal_length obj = 0 → calculate_optimal_voxel_size obj dl us = 0.1) := by
  constructor
  · have h : (0 : ℝ) ≤ (obj.data.vertices : ℝ) ^ (0.3 : ℝ) :=
      Real.rpow_nonneg (Nat.cast_nonneg _) _
    positivity
  · exact fun h => voxel_size_of_zero_diagonal obj dl us hdl h

theorem voxel_size_total_witness :
    calculate_optimal_voxel_size degObj 1 1 = 0.1 :=
  (voxel_size_total degObj 1 1 (by norm_num)).2 degObj_diag

/-- Claim C4: with the bounding box, face count, detail level and unit scale
fixed, increasing the vertex count never increases the voxel size. -/
theorem voxel_size_antitone_in_vertex_count (t : String) (m : Mat4)
    (bb : List Vec3) (fc v1 v2 : ℕ) (dl us : ℝ) (hdl : 0 < dl) (hv : v1 ≤ v2) :
    calculate_optimal_voxel_size ⟨t, m, bb, ⟨v2, fc⟩⟩ dl us ≤
      calculate_optimal_voxel_size ⟨t, m, bb, ⟨v1, fc⟩⟩ dl us := by
  show max 0.1 (min (diagonal_length ⟨t, m, bb, ⟨v2, fc⟩⟩ *
      base_voxel_percent v2 * dl) (5.0 * dl)) ≤
    max 0.1 (min (diagonal_length ⟨t, m, bb, ⟨v1, fc⟩⟩ *
      base_voxel_percent v1 * dl) (5.0 * dl))
  have hdiag : diagonal_length ⟨t, m, bb, ⟨v2, fc⟩⟩ =
      diagonal_length ⟨t, m, bb, ⟨v1, fc⟩⟩ := rfl
  rw [hdiag]
  refine max_le_max le_rfl (min_le_min ?_ le_rfl)
  exact mul_le_mul_of_nonneg_right
    (mul_le_mul_of_nonneg_left (base_voxel_percent_anti hv)
      (diagonal_length_nonneg _)) hdl.le

theorem voxel_size_antitone_in_vertex_count_witness :
    calculate_optimal_voxel_size ⟨"MESH", idMat, degCorners, ⟨1, 0⟩⟩ 1 1 ≤
      calculate_optimal_voxel_size ⟨"MESH", idMat, degCorners, ⟨0, 0⟩⟩ 1 1 :=
  voxel_size_antitone_in_vertex_count "MESH" idMat degCorners 0 0 1 1 1
    (by norm_num) (by norm_num)

/-- Claim C5: with the vertex count, detail level and unit scale fixed, an
object with a larger (or equal) bounding-box diagonal never gets a smaller
voxel size. -/
theorem voxel_size_monotone_in_diagonal (o1 o2 : BlenderObject) (dl us : ℝ)
    (hdl : 0 < dl) (hv : o1.data.vertices = o2.data.vertices)
    (hd : diagonal_length o1 ≤ diagonal_length o2) :
    calculate_optimal_voxel_size o1 dl us ≤ calculate_optimal_voxel_size o2 dl us := by
  show max 0.1 (min (diagonal_length o1 * base_voxel_percent o1.data.vertices * dl)
      (5.0 * dl)) ≤
    max 0.1 (min (diagonal_length o2 * base_voxel_percent o2.data.vertices * dl)
      (5.0 * dl))
  rw [hv]
  refine max_le_max le_rfl (min_le_min ?_ le_rfl)
  exact mul_le_mul_of_nonneg_right
    (mul_le_mul_of_nonneg_right hd (base_voxel_percent_pos _).le) hdl.le

theorem voxel_size_monotone_in_diagonal_witness :
    calculate_optimal_voxel_size degObj 1 1 ≤ calculate_optimal_voxel_size cubeObj 1 1 :=
  voxel_size_monotone_in_diagonal degObj cubeObj 1 1 (by norm_num) rfl
    (by rw [degObj_diag]; exact diagonal_length_nonneg cubeObj)

/-- Claim C6: a degenerate bounding box (per-axis minimum equal to the
per-axis maximum, so diagonal 0) yields voxel size exactly `0.1`, for every
vertex count and positive detail level. -/
theorem voxel_size_degenerate_box (obj : BlenderObject) (dl us : ℝ)
    (hdl : 0 < dl) (hx : min_x obj = max_x obj) (hy : min_y obj = max_y obj)
    (hz : min_z obj = max_z obj) :
    calculate_optimal_voxel_size obj dl us = 0.1 := by
  apply voxel_size_of_zero_diagonal obj dl us hdl
  unfold diagonal_length
  rw [hx, hy, hz]
  rw [show (max_x obj - max_x obj) ^ 2 + (max_y obj - max_y obj) ^ 2 +
      (max_z obj - max_z obj) ^ 2 = (0 : ℝ) by ring]
  exact Real.zero_rpow (by norm_num)

theorem voxel_size_degenerate_box_witness :
    calculate_optimal_voxel_size degObj 2 1 = 0.1 :=
  voxel_size_degenerate_box degObj 2 1 (by norm_num)
    degObj_box_degenerate.1 degObj_box_degenerate.2.1 degObj_box_degenerate.2.2

/-- Claim C10: `validate_mesh` signals a `ValueError` exactly when the
object is `None`, or its type is not `MESH`, or its mesh has zero vertices,
or its mesh has zero faces; otherwise it returns normally. It never
modifies the object (the embedding is a pure function of it). -/
theorem validate_mesh_error_iff (obj : Option BlenderObject) :
    (∃ msg, validate_mesh obj = Except.error msg) ↔
      obj = none ∨ ∃ o, obj = some o ∧
        (o.type ≠ "MESH" ∨ o.data.vertices = 0 ∨ o.data.polygons = 0) := by
  cases obj with
  | none => simp [validate_mesh]
  | some o =>
    simp only [validate_mesh, Option.some.injEq, reduceCtorEq, false_or]
    split_ifs with h1 h2 h3 <;> simp_all
